import Mathlib

/-!
# ProceduralGraphics: the process entry point

An embedding of `src/ProceduralGraphics/main.cpp`.

```
int main()
{
    bool runRenderLoop = InitRenderer();
    if (runRenderLoop)
        RenderLoop();
    TerminateAndCleanUp();
}
```

The three functions come from the module `RendererCore`, which the first line of the
file imports and whose body is not part of the sources at hand.  They are taken as
parameters acting on an abstract world `W`; a call that does not come back to `main`
(an endless loop, an exception, `exit`) yields `none`.
-/

namespace ProceduralGraphics

/-- The external operations `main` can invoke. -/
inductive Call where
  | InitRenderer
  | RenderLoop
  | TerminateAndCleanUp
  deriving DecidableEq, Repr

/-- The interface of the imported module `RendererCore`, as `main` sees it.  Each
operation transforms the world; `none` stands for a call that never returns to `main`. -/
structure RendererCore (W : Type) where
  InitRenderer : W → Option (Bool × W)
  RenderLoop : W → Option W
  TerminateAndCleanUp : W → Option W

/-- What one execution of `main` leaves behind: the calls it made, in the order it made
them (a call is recorded when it is invoked), the exit status when `main` returned, and
the final world. -/
structure Run (W : Type) where
  trace : List Call
  exitStatus : Option Int
  world : W

/-- The statement `TerminateAndCleanUp();` followed by the closing brace of `main`:
falling off the end of `main` returns 0. -/
def terminateAndReturn {W : Type} (core : RendererCore W) (trace : List Call) (w : W) :
    Run W :=
  match core.TerminateAndCleanUp w with
  | none => { trace := trace ++ [Call.TerminateAndCleanUp], exitStatus := none, world := w }
  | some w1 =>
    { trace := trace ++ [Call.TerminateAndCleanUp], exitStatus := some 0, world := w1 }

/-- The function `main` of `main.cpp`. -/
def main {W : Type} (core : RendererCore W) (w : W) : Run W :=
  match core.InitRenderer w with
  | none => { trace := [Call.InitRenderer], exitStatus := none, world := w }
  | some (runRenderLoop, w1) =>
    if runRenderLoop then
      match core.RenderLoop w1 with
      | none =>
        { trace := [Call.InitRenderer, Call.RenderLoop], exitStatus := none, world := w1 }
      | some w2 => terminateAndReturn core [Call.InitRenderer, Call.RenderLoop] w2
    else
      terminateAndReturn core [Call.InitRenderer] w1

/-- Every operation of the module returns to its caller, whatever the world. -/
def ReturnsNormally {W : Type} (core : RendererCore W) : Prop :=
  ∀ w : W, (core.InitRenderer w).isSome = true ∧ (core.RenderLoop w).isSome = true ∧
    (core.TerminateAndCleanUp w).isSome = true

/-- The value `InitRenderer` handed back to `main`; `false` when it never returned. -/
def initResult {W : Type} (core : RendererCore W) (w : W) : Bool :=
  match core.InitRenderer w with
  | some (b, _) => b
  | none => false

/-- The lifecycle of the renderer as the caller can observe it. -/
inductive Lifecycle where
  | Uninitialized
  | Ready
  | Destroyed
  deriving DecidableEq, Repr

/-- One step of the lifecycle: a call of `InitRenderer` that returns `initOk = true`
takes `Uninitialized` to `Ready`, a call of `TerminateAndCleanUp` takes any state to
`Destroyed`, and nothing leaves `Destroyed`. -/
def lifecycleStep (initOk : Bool) : Lifecycle → Call → Lifecycle
  | Lifecycle.Destroyed, _ => Lifecycle.Destroyed
  | _, Call.TerminateAndCleanUp => Lifecycle.Destroyed
  | Lifecycle.Uninitialized, Call.InitRenderer =>
    if initOk then Lifecycle.Ready else Lifecycle.Uninitialized
  | s, _ => s

/-- The lifecycle state reached from `Uninitialized` after the first `i` calls of a
trace. -/
def stateBefore (initOk : Bool) (trace : List Call) (i : Nat) : Lifecycle :=
  (trace.take i).foldl (lifecycleStep initOk) Lifecycle.Uninitialized

/-- A module over the world `Nat` (a call counter) whose operations all return;
`InitRenderer` reports the given result. -/
def counterCore (initOk : Bool) : RendererCore Nat where
  InitRenderer := fun n => some (initOk, n + 1)
  RenderLoop := fun n => some (n + 1)
  TerminateAndCleanUp := fun n => some (n + 1)

/-- A module whose `InitRenderer` succeeds and whose `TerminateAndCleanUp` never
returns. -/
def stuckTeardownCore : RendererCore Nat where
  InitRenderer := fun n => some (true, n + 1)
  RenderLoop := fun n => some (n + 1)
  TerminateAndCleanUp := fun _ => none

/-!
## The renderer core behind the facade

The module `RendererCore` is imported by `main.cpp` and its body is not among the
sources.  The definitions of this section follow the written specification of the core
(sections 3, 4.1, 4.2, 4.3 and 4.5).
-/

namespace RendererCoreSpec

/-- Modelled from the spec: the state machine of the Device Context (section 4.1),
`Uninitialized → Ready → Destroyed`; the body of `RendererCore` is missing. -/
inductive DeviceState where
  | Uninitialized
  | Ready
  | Destroyed
  deriving DecidableEq, Repr

/-- Modelled from the spec: a `GpuResource` (section 3) with its identifier, size
descriptor and generation counter; the body of `RendererCore` is missing. -/
structure GpuResource where
  identifier : Nat
  size : Nat
  generation : Nat
  deriving DecidableEq, Repr

/-- Modelled from the spec: the programming error that `Destroy` reports when there is
no live device to release (section 4.1: calling it twice is reported, not silently
ignored); the body of `RendererCore` is missing. -/
inductive TeardownError where
  | NoLiveDevice
  deriving DecidableEq, Repr

/-- Modelled from the spec: what the facade owns (sections 2 and 4.5), the Device
Context and the resources tracked by the Resource Manager; the body of `RendererCore`
is missing. -/
structure Core where
  device : DeviceState
  resources : List GpuResource
  deriving DecidableEq, Repr

/-- Modelled from the spec: `Destroy(handle)` of the Device Context (section 4.1).  It
releases a live device; any other call is a programming error that is reported.  The
body of `RendererCore` is missing. -/
def Destroy : DeviceState → Except TeardownError DeviceState
  | DeviceState.Ready => Except.ok DeviceState.Destroyed
  | DeviceState.Uninitialized => Except.error TeardownError.NoLiveDevice
  | DeviceState.Destroyed => Except.error TeardownError.NoLiveDevice

/-- Modelled from the spec: `ReleaseAll()` of the Resource Manager (section 4.2), which
destroys every tracked resource; the body of `RendererCore` is missing. -/
def ReleaseAll (_tracked : List GpuResource) : List GpuResource := []

/-- Modelled from the spec: `TerminateAndCleanUp()` of the facade (section 4.5), a
teardown of whatever was actually created: the tracked resources are released first
(section 4.2: `ReleaseAll` completes before the device is destroyed), then the device is
destroyed when one is live.  The body of `RendererCore` is missing. -/
def TerminateAndCleanUp (c : Core) : Except TeardownError Core :=
  let released := ReleaseAll c.resources
  match c.device with
  | DeviceState.Ready =>
    match Destroy c.device with
    | Except.ok d => Except.ok { device := d, resources := released }
    | Except.error e => Except.error e
  | DeviceState.Uninitialized =>
    Except.ok { device := DeviceState.Uninitialized, resources := released }
  | DeviceState.Destroyed =>
    Except.ok { device := DeviceState.Destroyed, resources := released }

/-- Modelled from the spec: a core on which `InitRenderer` never ran, or failed before
anything was created; the body of `RendererCore` is missing. -/
def neverStarted : Core := { device := DeviceState.Uninitialized, resources := [] }

/-- Modelled from the spec: `ProceduralParameters` (section 3): seed, resolution and
parameter set; the body of `RendererCore` is missing. -/
structure ProceduralParameters where
  seed : Nat
  resolution : Nat
  parameterSet : List Nat
  deriving DecidableEq, Repr

/-- Modelled from the spec: a `ContentBuffer` (section 4.3), as its bytes; the body of
`RendererCore` is missing. -/
abbrev ContentBuffer := List Nat

/-- Modelled from the spec: the error taxonomy of the generator (section 7); the body
of `RendererCore` is missing. -/
inductive GenerationError where
  | InvalidParameters
  deriving DecidableEq, Repr

/-- Modelled from the spec: the generation algorithm itself, which the spec leaves
open: a full rebuild from the parameters, and an incremental delta on a previous
buffer (section 4.3); the body of `RendererCore` is missing. -/
structure Algorithm where
  rebuild : ProceduralParameters → ContentBuffer
  delta : ProceduralParameters → ContentBuffer → ContentBuffer

/-- Modelled from the spec: `Generate(params, previous?)` (section 4.3) under the
configuration option `incremental`.  Degenerate parameters (resolution 0) fail with
`InvalidParameters`; otherwise a previous buffer may be updated incrementally when the
option is set, and the content is rebuilt in full when not.  The body of `RendererCore`
is missing. -/
def Generate (incremental : Bool) (alg : Algorithm) (params : ProceduralParameters)
    (previous : Option ContentBuffer) : Except GenerationError ContentBuffer :=
  if params.resolution = 0 then
    Except.error GenerationError.InvalidParameters
  else
    match incremental, previous with
    | true, some buffer => Except.ok (alg.delta params buffer)
    | _, _ => Except.ok (alg.rebuild params)

/-- An algorithm that fills `resolution` bytes with the seed. -/
def fillAlgorithm : Algorithm where
  rebuild := fun p => List.replicate p.resolution (p.seed % 256)
  delta := fun p buffer => buffer.map (fun x => (x + p.seed) % 256)

end RendererCoreSpec

/-! ## The call sequence of `main` -/

/-- The teardown statement appends exactly one call to the trace, whether or not the
call returns. -/
theorem terminateAndReturn_trace {W : Type} (core : RendererCore W) (trace : List Call)
    (w : W) :
    (terminateAndReturn core trace w).trace = trace ++ [Call.TerminateAndCleanUp] := by
  unfold terminateAndReturn
  cases core.TerminateAndCleanUp w <;> rfl

/-- The trace when `InitRenderer` never returns. -/
theorem main_trace_of_init_stuck {W : Type} (core : RendererCore W) (w : W)
    (hinit : core.InitRenderer w = none) : (main core w).trace = [Call.InitRenderer] := by
  simp only [main, hinit]

/-- The trace when `InitRenderer` returns `false`. -/
theorem main_trace_of_init_false {W : Type} (core : RendererCore W) (w w1 : W)
    (hinit : core.InitRenderer w = some (false, w1)) :
    (main core w).trace = [Call.InitRenderer, Call.TerminateAndCleanUp] := by
  simp [main, hinit, terminateAndReturn_trace]

/-- The trace when `InitRenderer` returns `true` and `RenderLoop` never returns. -/
theorem main_trace_of_loop_stuck {W : Type} (core : RendererCore W) (w w1 : W)
    (hinit : core.InitRenderer w = some (true, w1)) (hloop : core.RenderLoop w1 = none) :
    (main core w).trace = [Call.InitRenderer, Call.RenderLoop] := by
  simp [main, hinit, hloop]

/-- The trace when `InitRenderer` returns `true` and `RenderLoop` returns. -/
theorem main_trace_of_loop_done {W : Type} (core : RendererCore W) (w w1 w2 : W)
    (hinit : core.InitRenderer w = some (true, w1))
    (hloop : core.RenderLoop w1 = some w2) :
    (main core w).trace =
      [Call.InitRenderer, Call.RenderLoop, Call.TerminateAndCleanUp] := by
  simp [main, hinit, hloop, terminateAndReturn_trace]

/-- C1: when every external call returns and `InitRenderer` returns `b`, the calls of
`main` are exactly `InitRenderer, RenderLoop, TerminateAndCleanUp` for `b = true` and
exactly `InitRenderer, TerminateAndCleanUp` for `b = false`; `InitRenderer` is the first
call and is made exactly once. -/
theorem main_trace_exact {W : Type} (core : RendererCore W) (w w1 : W) (b : Bool)
    (hret : ReturnsNormally core) (hinit : core.InitRenderer w = some (b, w1)) :
    (main core w).trace =
        (if b then [Call.InitRenderer, Call.RenderLoop, Call.TerminateAndCleanUp]
         else [Call.InitRenderer, Call.TerminateAndCleanUp]) ∧
      (main core w).trace.head? = some Call.InitRenderer ∧
      (main core w).trace.count Call.InitRenderer = 1 := by
  cases b with
  | false =>
    rw [main_trace_of_init_false core w w1 hinit]
    simp
  | true =>
    obtain ⟨w2, hloop⟩ := Option.isSome_iff_exists.mp (hret w1).2.1
    rw [main_trace_of_loop_done core w w1 w2 hinit hloop]
    simp

/-- C1, at a concrete module: both results of `InitRenderer`. -/
theorem main_trace_exact_witness :
    (main (counterCore true) 0).trace =
        [Call.InitRenderer, Call.RenderLoop, Call.TerminateAndCleanUp] ∧
      (main (counterCore false) 0).trace = [Call.InitRenderer, Call.TerminateAndCleanUp] :=
  ⟨(main_trace_exact (counterCore true) 0 1 true (fun _ => ⟨rfl, rfl, rfl⟩) rfl).1,
   (main_trace_exact (counterCore false) 0 1 false (fun _ => ⟨rfl, rfl, rfl⟩) rfl).1⟩

/-- C2: `main` calls `RenderLoop` if and only if `InitRenderer` returned `true`: when it
returned `false` the call is absent from the trace, when it returned `true` the call
occurs exactly once. -/
theorem renderLoop_iff_init_true {W : Type} (core : RendererCore W) (w w1 : W) (b : Bool)
    (hinit : core.InitRenderer w = some (b, w1)) :
    (Call.RenderLoop ∈ (main core w).trace ↔ b = true) ∧
      (main core w).trace.count Call.RenderLoop = (if b then 1 else 0) := by
  cases b with
  | false =>
    rw [main_trace_of_init_false core w w1 hinit]
    simp
  | true =>
    cases hloop : core.RenderLoop w1 with
    | none =>
      rw [main_trace_of_loop_stuck core w w1 hinit hloop]
      simp
    | some w2 =>
      rw [main_trace_of_loop_done core w w1 w2 hinit hloop]
      simp

/-- C2, at a concrete module: no `RenderLoop` after a failed `InitRenderer`, one after a
successful one. -/
theorem renderLoop_iff_init_true_witness :
    (main (counterCore false) 0).trace.count Call.RenderLoop = 0 ∧
      (main (counterCore true) 0).trace.count Call.RenderLoop = 1 :=
  ⟨(renderLoop_iff_init_true (counterCore false) 0 1 false rfl).2,
   (renderLoop_iff_init_true (counterCore true) 0 1 true rfl).2⟩

/-- C3: whatever `InitRenderer` returns, provided it returns and provided `RenderLoop`
returns when it is called, `main` calls `TerminateAndCleanUp` exactly once and that
call is the last of the trace. -/
theorem terminate_once_and_last {W : Type} (core : RendererCore W) (w w1 : W) (b : Bool)
    (hinit : core.InitRenderer w = some (b, w1))
    (hloop : b = true → (core.RenderLoop w1).isSome = true) :
    (main core w).trace.count Call.TerminateAndCleanUp = 1 ∧
      (main core w).trace.getLast? = some Call.TerminateAndCleanUp := by
  cases b with
  | false =>
    rw [main_trace_of_init_false core w w1 hinit]
    simp
  | true =>
    obtain ⟨w2, hw2⟩ := Option.isSome_iff_exists.mp (hloop rfl)
    rw [main_trace_of_loop_done core w w1 w2 hinit hw2]
    simp

/-- C3, at a concrete module whose teardown itself never returns: the call is still
made once, and last. -/
theorem terminate_once_and_last_witness :
    (main stuckTeardownCore 0).trace.count Call.TerminateAndCleanUp = 1 ∧
      (main stuckTeardownCore 0).trace.getLast? = some Call.TerminateAndCleanUp :=
  terminate_once_and_last stuckTeardownCore 0 1 true rfl (fun _ => rfl)

/-- C7: along the trace of `main`, with the lifecycle starting at `Uninitialized`,
becoming `Ready` when `InitRenderer` returns `true` and `Destroyed` when
`TerminateAndCleanUp` is called: no call is made in state `Destroyed`, and every call
of `RenderLoop` is made in state `Ready`.  This holds whether or not the external calls
return. -/
theorem main_respects_lifecycle {W : Type} (core : RendererCore W) (w : W) (i : Nat)
    (c : Call) (hcall : (main core w).trace.get? i = some c) :
    stateBefore (initResult core w) (main core w).trace i ≠ Lifecycle.Destroyed ∧
      (c = Call.RenderLoop →
        stateBefore (initResult core w) (main core w).trace i = Lifecycle.Ready) := by
  revert hcall
  cases hinit : core.InitRenderer w with
  | none =>
    rw [main_trace_of_init_stuck core w hinit]
    simp only [initResult, hinit, stateBefore]
    rcases i with _ | i
    · intro h
      have hc : c = Call.InitRenderer := by simpa using h.symm
      subst hc
      simp
    · simp
  | some r =>
    obtain ⟨b, w1⟩ := r
    cases b with
    | false =>
      rw [main_trace_of_init_false core w w1 hinit]
      simp only [initResult, hinit, stateBefore]
      rcases i with _ | _ | i
      · intro h
        have hc : c = Call.InitRenderer := by simpa using h.symm
        subst hc
        simp
      · intro h
        have hc : c = Call.TerminateAndCleanUp := by simpa using h.symm
        subst hc
        simp [lifecycleStep]
      · simp
    | true =>
      cases hloop : core.RenderLoop w1 with
      | none =>
        rw [main_trace_of_loop_stuck core w w1 hinit hloop]
        simp only [initResult, hinit, stateBefore]
        rcases i with _ | _ | i
        · intro h
          have hc : c = Call.InitRenderer := by simpa using h.symm
          subst hc
          simp
        · intro h
          simp [lifecycleStep]
        · simp
      | some w2 =>
        rw [main_trace_of_loop_done core w w1 w2 hinit hloop]
        simp only [initResult, hinit, stateBefore]
        rcases i with _ | _ | _ | i
        · intro h
          have hc : c = Call.InitRenderer := by simpa using h.symm
          subst hc
          simp
        · intro h
          simp [lifecycleStep]
        · intro h
          have hc : c = Call.TerminateAndCleanUp := by simpa using h.symm
          subst hc
          simp [lifecycleStep]
        · simp

/-- C7, at a concrete module: the second call of a successful run is `RenderLoop`, made
in state `Ready`. -/
theorem main_respects_lifecycle_witness :
    (main (counterCore true) 0).trace.get? 1 = some Call.RenderLoop ∧
      stateBefore (initResult (counterCore true) 0) (main (counterCore true) 0).trace 1 =
        Lifecycle.Ready :=
  ⟨rfl, (main_respects_lifecycle (counterCore true) 0 1 Call.RenderLoop rfl).2 rfl⟩

/-- C8: when the external calls return, `main` exits with status 0, whatever
`InitRenderer` returned. -/
theorem main_exit_status_zero {W : Type} (core : RendererCore W) (w : W)
    (hret : ReturnsNormally core) : (main core w).exitStatus = some 0 := by
  obtain ⟨r, hinit⟩ := Option.isSome_iff_exists.mp (hret w).1
  obtain ⟨b, w1⟩ := r
  cases b with
  | false =>
    obtain ⟨w3, hterm⟩ := Option.isSome_iff_exists.mp (hret w1).2.2
    simp [main, hinit, terminateAndReturn, hterm]
  | true =>
    obtain ⟨w2, hloop⟩ := Option.isSome_iff_exists.mp (hret w1).2.1
    obtain ⟨w3, hterm⟩ := Option.isSome_iff_exists.mp (hret w2).2.2
    simp [main, hinit, hloop, terminateAndReturn, hterm]

/-- C8, at a concrete module: a failed initialisation and a successful run give the
same exit status. -/
theorem main_exit_status_zero_witness :
    (main (counterCore false) 0).exitStatus = some 0 ∧
      (main (counterCore true) 0).exitStatus = (main (counterCore false) 0).exitStatus :=
  ⟨main_exit_status_zero (counterCore false) 0 (fun _ => ⟨rfl, rfl, rfl⟩),
   (main_exit_status_zero (counterCore true) 0 (fun _ => ⟨rfl, rfl, rfl⟩)).trans
     (main_exit_status_zero (counterCore false) 0 (fun _ => ⟨rfl, rfl, rfl⟩)).symm⟩

/-! ## The specified core: teardown and generation -/

/-- C4: on the specified core, `TerminateAndCleanUp` never fails, whatever was created
before it (nothing, a device, resources, or a device already rolled back); it leaves no
tracked resource, destroys the device only when one was live, changes nothing on a
never-started core, and a second call succeeds and changes nothing more. -/
theorem terminateAndCleanUp_safe_idempotent (c : RendererCoreSpec.Core) :
    ∃ c1 : RendererCoreSpec.Core,
      RendererCoreSpec.TerminateAndCleanUp c = Except.ok c1 ∧
      RendererCoreSpec.TerminateAndCleanUp c1 = Except.ok c1 ∧
      c1.resources = [] ∧
      (c1.device = c.device ∨
        (c.device = RendererCoreSpec.DeviceState.Ready ∧
          c1.device = RendererCoreSpec.DeviceState.Destroyed)) ∧
      RendererCoreSpec.TerminateAndCleanUp RendererCoreSpec.neverStarted =
        Except.ok RendererCoreSpec.neverStarted := by
  obtain ⟨device, resources⟩ := c
  cases device with
  | Uninitialized =>
    exact ⟨⟨RendererCoreSpec.DeviceState.Uninitialized, []⟩, rfl, rfl, rfl, Or.inl rfl, rfl⟩
  | Ready =>
    exact ⟨⟨RendererCoreSpec.DeviceState.Destroyed, []⟩, rfl, rfl, rfl,
      Or.inr ⟨rfl, rfl⟩, rfl⟩
  | Destroyed =>
    exact ⟨⟨RendererCoreSpec.DeviceState.Destroyed, []⟩, rfl, rfl, rfl, Or.inl rfl, rfl⟩

/-- C6: on the specified generator, parameters of resolution 0 make `Generate` fail with
`InvalidParameters`, in either configuration and with or without a previous buffer, and
no buffer is produced. -/
theorem generate_rejects_zero_resolution (incremental : Bool)
    (alg : RendererCoreSpec.Algorithm) (params : RendererCoreSpec.ProceduralParameters)
    (previous : Option RendererCoreSpec.ContentBuffer) (hzero : params.resolution = 0) :
    RendererCoreSpec.Generate incremental alg params previous =
        Except.error RendererCoreSpec.GenerationError.InvalidParameters ∧
      ∀ buffer : RendererCoreSpec.ContentBuffer,
        RendererCoreSpec.Generate incremental alg params previous ≠ Except.ok buffer := by
  have hfail : RendererCoreSpec.Generate incremental alg params previous =
      Except.error RendererCoreSpec.GenerationError.InvalidParameters := by
    simp [RendererCoreSpec.Generate, hzero]
  refine ⟨hfail, ?_⟩
  intro buffer hbuf
  rw [hfail] at hbuf
  cases hbuf

/-- C6, at concrete parameters: resolution 0 with a previous buffer at hand, in
incremental mode. -/
theorem generate_rejects_zero_resolution_witness :
    RendererCoreSpec.Generate true RendererCoreSpec.fillAlgorithm
        { seed := 7, resolution := 0, parameterSet := [] } (some [1, 2, 3]) =
      Except.error RendererCoreSpec.GenerationError.InvalidParameters :=
  (generate_rejects_zero_resolution true RendererCoreSpec.fillAlgorithm
    { seed := 7, resolution := 0, parameterSet := [] } (some [1, 2, 3]) rfl).1

end ProceduralGraphics
